import Mathlib

/-!
Verification of the valuation core of `stock_app.py`.

The repository's algorithmic core consists of two pure functions in
`src/stock_app.py`:

* `dcf_model(fcf, growth, terminal_growth, discount_rate, years)` — a
  discounted-cash-flow valuation with an explicit forecast loop and a
  Gordon-growth terminal value, raising `ValueError` for invalid
  assumptions (terminal growth not below the discount rate) and for a
  negative final projected cash flow;
* `validate_weights(weights)` — a predicate checking that portfolio
  weights sum to 100 within a tolerance of 0.01.

We embed both shallowly over the rational numbers ℚ (the Python code uses
floats; the specification describes the arithmetic over the reals, and all
claims are about exact arithmetic).  Python's two `raise ValueError`
branches become two constructors of a typed error, and `dcf_model`
returns `Except DCFError ℚ`.  The Python `for` loop that projects and
discounts cash flows is translated as a left fold over `List.range years`
carrying the pair (accumulated list of discounted cash flows, current
cash flow), exactly mirroring the imperative state of the loop.

Division faithfulness: Python raises an untyped `ZeroDivisionError` when a
denominator is exactly zero, which for this model can happen only at
`discount_rate = -100` (then `1 + discount_rate/100 = 0` and the loop's
division by `(1 + discount_rate/100) ** year` raises for `year ≥ 1`).  We
model this with a third error constructor `DCFError.ZeroDivision`, checked
at each of the three division sites in the order Python executes them, so
the embedding crashes exactly where the program does.  (The divisions by
the literal `100` can never raise.)
-/

namespace StockApp

/-- The failures of the DCF engine: `InvalidAssumptions` and
`NegativeTerminalCashFlow` correspond to the two
`raise ValueError(...)` statements of `dcf_model` in `src/stock_app.py`;
`ZeroDivision` models Python's untyped `ZeroDivisionError`, raised when a
division's denominator is exactly zero (only possible at
`discount_rate = -100`), which is a crash and not one of the two typed
failures of the specification's error taxonomy. -/
inductive DCFError where
  | InvalidAssumptions
  | NegativeTerminalCashFlow
  | ZeroDivision
deriving DecidableEq

/-- One iteration of the explicit forecast loop of `dcf_model`
(`src/stock_app.py`, lines 53–56) at 1-indexed `year`: update
`current_fcf *= (1 + growth/100)`, then compute
`current_fcf / (1 + discount_rate/100) ** year` — raising
`ZeroDivisionError` if that denominator is zero — and append it to
`cash_flows`.  A previously raised error propagates. -/
def dcf_step (growth discount_rate : ℚ) (st : Except DCFError (List ℚ × ℚ))
    (year : ℕ) : Except DCFError (List ℚ × ℚ) :=
  st.bind fun res =>
    let current_fcf := res.2 * (1 + growth / 100)
    if (1 + discount_rate / 100) ^ year = 0 then
      .error .ZeroDivision
    else
      .ok (res.1 ++ [current_fcf / (1 + discount_rate / 100) ^ year], current_fcf)

/-- The explicit forecast loop of `dcf_model` (`src/stock_app.py`, lines
49–56): starting from `cash_flows = []` and `current_fcf = fcf`, run
`dcf_step` for `year = 1 .. years`. -/
def dcf_loop (growth discount_rate fcf : ℚ) (years : ℕ) :
    Except DCFError (List ℚ × ℚ) :=
  (List.range years).foldl (fun st i => dcf_step growth discount_rate st (i + 1))
    (.ok ([], fcf))

/-- The Gordon-growth terminal value of `dcf_model` (`src/stock_app.py`,
lines 73–74). -/
def terminal_value (final_year_fcf terminal_growth discount_rate : ℚ) : ℚ :=
  final_year_fcf * (1 + terminal_growth / 100) /
    (discount_rate / 100 - terminal_growth / 100)

/-- `dcf_model` from `src/stock_app.py` (lines 44–80): validates the
assumptions, runs the explicit forecast loop (propagating its
`ZeroDivisionError` if it raises), checks the final projected cash flow,
and combines the discounted explicit cash flows with the discounted
terminal value.  The two remaining division sites (the terminal-value
denominator `discount_rate/100 - terminal_growth/100`, and the terminal
discount `(1 + discount_rate/100) ** years`) carry their own
zero-denominator checks in Python's evaluation order; both are in fact
unreachable — the first because the assumptions guard has already ensured
`terminal_growth < discount_rate`, the second because `years = 0` gives
the denominator `1` while for `years ≥ 1` the loop would already have
raised. -/
def dcf_model (fcf growth terminal_growth discount_rate : ℚ) (years : ℕ) :
    Except DCFError ℚ :=
  if terminal_growth ≥ discount_rate then
    .error .InvalidAssumptions
  else
    (dcf_loop growth discount_rate fcf years).bind fun res =>
      let cash_flows := res.1
      let final_year_fcf := res.2
      if final_year_fcf < 0 then
        .error .NegativeTerminalCashFlow
      else if discount_rate / 100 - terminal_growth / 100 = 0 then
        .error .ZeroDivision
      else
        let tv := terminal_value final_year_fcf terminal_growth discount_rate
        if (1 + discount_rate / 100) ^ years = 0 then
          .error .ZeroDivision
        else
          .ok (cash_flows.sum + tv / (1 + discount_rate / 100) ^ years)

/-- `validate_weights` from `src/stock_app.py` (lines 82–84):
`abs(sum(weights) - 100.0) < 0.01`. -/
def validate_weights (weights : List ℚ) : Bool :=
  decide (|weights.sum - 100| < 1 / 100)

/-! ### Basic lemmas about the forecast loop -/

/-- `Except.bind` on a success applies the continuation. -/
lemma except_bind_ok {ε α β : Type} (a : α) (f : α → Except ε β) :
    (Except.ok a : Except ε α).bind f = f a := rfl

/-- `Except.bind` on a failure propagates it. -/
lemma except_bind_err {ε α β : Type} (e : ε) (f : α → Except ε β) :
    (Except.error e : Except ε α).bind f = .error e := rfl

/-- Unfolding one iteration of the forecast loop. -/
lemma dcf_loop_succ (g d f : ℚ) (n : ℕ) :
    dcf_loop g d f (n + 1) = dcf_step g d (dcf_loop g d f n) (n + 1) := by
  rw [dcf_loop, dcf_loop, List.range_succ, List.foldl_append, List.foldl_cons,
    List.foldl_nil]

/-- Summing a function mapped over `List.range` is the `Finset.range` sum. -/
lemma sum_map_range (h : ℕ → ℚ) (n : ℕ) :
    ((List.range n).map h).sum = ∑ t ∈ Finset.range n, h t := by
  induction n with
  | zero => simp
  | succ n ih =>
    rw [List.range_succ, List.map_append, List.sum_append, Finset.sum_range_succ, ih]
    simp

/-- With a non-vanishing discount factor the loop succeeds, recording the
discounted compounded cash flows and ending at `f * (1 + g/100)^n`. -/
lemma dcf_loop_ok (g d f : ℚ) (n : ℕ) (hD : (1 : ℚ) + d / 100 ≠ 0) :
    dcf_loop g d f n =
      .ok ((List.range n).map
            (fun t => f * (1 + g / 100) ^ (t + 1) / (1 + d / 100) ^ (t + 1)),
          f * (1 + g / 100) ^ n) := by
  induction n with
  | zero => simp [dcf_loop]
  | succ n ih =>
    rw [dcf_loop_succ, ih, dcf_step, except_bind_ok]
    simp only [if_neg (pow_ne_zero (n + 1) hD)]
    have hA : f * (1 + g / 100) ^ n * (1 + g / 100) = f * (1 + g / 100) ^ (n + 1) := by
      rw [pow_succ, mul_assoc]
    rw [List.range_succ, List.map_append, hA]
    simp

/-- At `discount_rate = -100` the discount factor is `0`, so the loop
raises `ZeroDivision` on its first iteration (mirroring Python's
`ZeroDivisionError` at `src/stock_app.py`, line 55). -/
lemma dcf_loop_zero_div (g f : ℚ) (n : ℕ) :
    dcf_loop g (-100) f (n + 1) = .error .ZeroDivision := by
  induction n with
  | zero =>
    rw [dcf_loop, List.range_succ]
    simp [dcf_step, except_bind_ok]
  | succ n ih =>
    rw [dcf_loop_succ, ih, dcf_step, except_bind_err]

/-- On valid assumptions with a non-vanishing discount factor and a
non-negative final projected cash flow, `dcf_model` succeeds and returns
the closed-form total. -/
lemma dcf_model_eq_closed (f g tg dr : ℚ) (y : ℕ) (hD : (1 : ℚ) + dr / 100 ≠ 0)
    (h1 : tg < dr) (h2 : 0 ≤ f * (1 + g / 100) ^ y) :
    dcf_model f g tg dr y =
      .ok ((∑ t ∈ Finset.range y, f * (1 + g / 100) ^ (t + 1) / (1 + dr / 100) ^ (t + 1)) +
        f * (1 + g / 100) ^ y * (1 + tg / 100) / (dr / 100 - tg / 100) /
          (1 + dr / 100) ^ y) := by
  have hs : dr / 100 - tg / 100 ≠ 0 := ne_of_gt (by linarith)
  rw [dcf_model, if_neg (not_le.mpr h1), dcf_loop_ok g dr f y hD, except_bind_ok]
  simp only [if_neg (not_lt.mpr h2), if_neg hs, if_neg (pow_ne_zero y hD)]
  rw [sum_map_range, terminal_value]

/-- On valid assumptions with a non-vanishing discount factor and a
strictly negative final projected cash flow, `dcf_model` fails with
`NegativeTerminalCashFlow`. -/
lemma dcf_model_error_of_neg_final (f g tg dr : ℚ) (y : ℕ)
    (hD : (1 : ℚ) + dr / 100 ≠ 0) (h1 : tg < dr)
    (h2 : f * (1 + g / 100) ^ y < 0) :
    dcf_model f g tg dr y = .error .NegativeTerminalCashFlow := by
  rw [dcf_model, if_neg (not_le.mpr h1), dcf_loop_ok g dr f y hD, except_bind_ok]
  simp only [if_pos h2]

/-- At `discount_rate = -100` with at least one forecast year and valid
assumptions, `dcf_model` propagates the loop's `ZeroDivision` crash. -/
lemma dcf_model_zero_div (f g tg : ℚ) (n : ℕ) (h1 : tg < -100) :
    dcf_model f g tg (-100) (n + 1) = .error .ZeroDivision := by
  rw [dcf_model, if_neg (not_le.mpr h1), dcf_loop_zero_div, except_bind_err]

/-- Combining the last explicit-period term with the discounted terminal
value: with `s + w = D` (for the model, `s = dr/100 - tg/100`,
`w = 1 + tg/100`, `D = 1 + dr/100`), the two collapse to a single
fraction. -/
lemma gordon_step (f a s D Dn w : ℚ) (hs : s ≠ 0) (hD : D ≠ 0) (hDn : Dn ≠ 0)
    (hkey : s + w = D) :
    f * a / (Dn * D) + f * a * w / s / (Dn * D) = f * a / (s * Dn) := by
  field_simp
  linear_combination f * a * s * Dn ^ 2 * D * hkey

/-- The closed-form total with `n + 1` forecast years, rewritten with the
last explicit-period term folded into the discounted terminal value. -/
lemma closed_split (f g tg dr : ℚ) (n : ℕ) (hD : (1 : ℚ) + dr / 100 ≠ 0)
    (hs : dr / 100 - tg / 100 ≠ 0) :
    (∑ t ∈ Finset.range (n + 1), f * (1 + g / 100) ^ (t + 1) / (1 + dr / 100) ^ (t + 1)) +
      f * (1 + g / 100) ^ (n + 1) * (1 + tg / 100) / (dr / 100 - tg / 100) /
        (1 + dr / 100) ^ (n + 1)
    = (∑ t ∈ Finset.range n, f * (1 + g / 100) ^ (t + 1) / (1 + dr / 100) ^ (t + 1)) +
      f * (1 + g / 100) ^ (n + 1) / ((dr / 100 - tg / 100) * (1 + dr / 100) ^ n) := by
  rw [Finset.sum_range_succ, add_assoc]
  congr 1
  rw [pow_succ ((1 : ℚ) + dr / 100) n]
  exact gordon_step f ((1 + g / 100) ^ (n + 1)) (dr / 100 - tg / 100) (1 + dr / 100)
    ((1 + dr / 100) ^ n) (1 + tg / 100) hs hD (pow_ne_zero _ hD) (by ring)

/-- The closed-form total strictly decreases when the discount rate grows,
provided the initial cash flow is positive, the growth factor and the
smaller discount factor are positive, and the terminal growth rate is below
the smaller discount rate. -/
lemma closed_anti (f g tg dr₁ dr₂ : ℚ) (n : ℕ)
    (hf : 0 < f) (hA : (0 : ℚ) < 1 + g / 100) (hD1 : (0 : ℚ) < 1 + dr₁ / 100)
    (h12 : dr₁ < dr₂) (h1 : tg < dr₁) :
    (∑ t ∈ Finset.range (n + 1), f * (1 + g / 100) ^ (t + 1) / (1 + dr₂ / 100) ^ (t + 1)) +
      f * (1 + g / 100) ^ (n + 1) * (1 + tg / 100) / (dr₂ / 100 - tg / 100) /
        (1 + dr₂ / 100) ^ (n + 1)
    < (∑ t ∈ Finset.range (n + 1), f * (1 + g / 100) ^ (t + 1) / (1 + dr₁ / 100) ^ (t + 1)) +
      f * (1 + g / 100) ^ (n + 1) * (1 + tg / 100) / (dr₁ / 100 - tg / 100) /
        (1 + dr₁ / 100) ^ (n + 1) := by
  have hD2 : (0 : ℚ) < 1 + dr₂ / 100 := by linarith
  have hs1 : (0 : ℚ) < dr₁ / 100 - tg / 100 := by linarith
  have hs2 : (0 : ℚ) < dr₂ / 100 - tg / 100 := by linarith
  rw [closed_split f g tg dr₁ n hD1.ne' hs1.ne', closed_split f g tg dr₂ n hD2.ne' hs2.ne']
  have hE : (∑ t ∈ Finset.range n, f * (1 + g / 100) ^ (t + 1) / (1 + dr₂ / 100) ^ (t + 1)) ≤
      ∑ t ∈ Finset.range n, f * (1 + g / 100) ^ (t + 1) / (1 + dr₁ / 100) ^ (t + 1) := by
    apply Finset.sum_le_sum
    intro i _
    gcongr
  have hL : f * (1 + g / 100) ^ (n + 1) / ((dr₂ / 100 - tg / 100) * (1 + dr₂ / 100) ^ n) <
      f * (1 + g / 100) ^ (n + 1) / ((dr₁ / 100 - tg / 100) * (1 + dr₁ / 100) ^ n) := by
    apply div_lt_div_of_pos_left
    · positivity
    · positivity
    · exact mul_lt_mul (by linarith) (pow_le_pow_left₀ hD1.le (by linarith) n)
        (by positivity) hs2.le
  linarith

/-! ### Claim theorems -/

/-- C1 counterexample: at `fcf = 100`, `growth = 0`,
`terminal_growth = -150`, `discount_rate = -100`, `years = 1`, the claim's
hypotheses hold (`tg < dr` and the final projected cash flow
`100*(1+0/100)^1 = 100` is non-negative), yet `dcf_model` does not return
a total: the loop's division by `(1 + (-100)/100)^1 = 0` raises
`ZeroDivisionError` (`src/stock_app.py`, line 55). -/
theorem dcf_model_closed_form_cex :
    (-150 : ℚ) < -100 ∧ 0 ≤ (100 : ℚ) * (1 + 0 / 100) ^ 1 ∧
    dcf_model 100 0 (-150) (-100) 1 = .error .ZeroDivision := by
  refine ⟨by norm_num, by norm_num, ?_⟩
  exact dcf_model_zero_div 100 0 (-150) 0 (by norm_num)

/-- C1 (amended): for every input with
`terminal_growth_rate_pct < discount_rate_pct`, non-negative final
projected cash flow, and `discount_rate_pct ≠ -100` (at `-100` the
program instead raises `ZeroDivisionError`), `dcf_model` returns the sum
over `t = 1 .. forecast_years` of `cf_0*(1+g/100)^t / (1+d/100)^t` plus
the terminal value `final_year_fcf*(1+tg/100) / (d/100 - tg/100)`
discounted by `(1+d/100)^forecast_years`, where
`final_year_fcf = cf_0*(1+g/100)^y`. -/
theorem dcf_model_closed_form (f g tg dr : ℚ) (y : ℕ) (hdr : dr ≠ -100)
    (h1 : tg < dr) (h2 : 0 ≤ f * (1 + g / 100) ^ y) :
    dcf_model f g tg dr y =
      .ok ((∑ t ∈ Finset.range y, f * (1 + g / 100) ^ (t + 1) / (1 + dr / 100) ^ (t + 1)) +
        f * (1 + g / 100) ^ y * (1 + tg / 100) / (dr / 100 - tg / 100) /
          (1 + dr / 100) ^ y) :=
  dcf_model_eq_closed f g tg dr y (fun h => hdr (by linarith)) h1 h2

/-- Witness for C1 at `f = 100`, `g = 0`, `tg = 0`, `dr = 10`, `y = 1`. -/
theorem dcf_model_closed_form_witness :
    dcf_model 100 0 0 10 1 =
      .ok ((∑ t ∈ Finset.range 1, 100 * (1 + 0 / 100) ^ (t + 1) / (1 + 10 / 100) ^ (t + 1)) +
        100 * (1 + 0 / 100) ^ 1 * (1 + 0 / 100) / (10 / 100 - 0 / 100) /
          (1 + 10 / 100) ^ 1) :=
  dcf_model_closed_form 100 0 0 10 1 (by norm_num) (by norm_num) (by norm_num)

/-- C2: whenever `terminal_growth_rate_pct ≥ discount_rate_pct` (the equal
and the strictly greater case alike), `dcf_model` fails with
`InvalidAssumptions`; the check precedes all cash-flow computation, so no
other failure kind is possible for such inputs. -/
theorem dcf_model_invalid_assumptions (f g tg dr : ℚ) (y : ℕ) (h : tg ≥ dr) :
    dcf_model f g tg dr y = .error .InvalidAssumptions := by
  rw [dcf_model, if_pos h]

/-- Witness for C2 at the equal case `tg = dr = 10`. -/
theorem dcf_model_invalid_assumptions_witness :
    dcf_model 100 5 10 10 3 = .error .InvalidAssumptions :=
  dcf_model_invalid_assumptions 100 5 10 10 3 (by norm_num)

/-- C3 counterexample: at `fcf = -50`, `growth = 10`,
`terminal_growth = -150`, `discount_rate = -100`, `years = 1`, every
hypothesis of the claim holds (`tg < dr`, final projected cash flow
`-50*(1+10/100)^1 = -55 < 0`, positive growth, at least one year), yet the
program raises `ZeroDivisionError` inside the loop (`src/stock_app.py`,
line 55) before the final-cash-flow check is ever reached, so the typed
`NegativeTerminalCashFlow` failure is not produced. -/
theorem dcf_model_negative_final_fcf_cex :
    (-150 : ℚ) < -100 ∧ (0 : ℚ) < 10 ∧ (-50 : ℚ) * (1 + 10 / 100) ^ 1 < 0 ∧
    dcf_model (-50) 10 (-150) (-100) 1 = .error .ZeroDivision ∧
    dcf_model (-50) 10 (-150) (-100) 1 ≠ .error .NegativeTerminalCashFlow := by
  have h : dcf_model (-50) 10 (-150) (-100) 1 = .error .ZeroDivision :=
    dcf_model_zero_div (-50) 10 (-150) 0 (by norm_num)
  refine ⟨by norm_num, by norm_num, by norm_num, h, ?_⟩
  rw [h]
  simp

/-- C3 (amended): with `terminal_growth_rate_pct < discount_rate_pct`,
`discount_rate_pct ≠ -100` (at `-100` the loop raises `ZeroDivisionError`
before the final-cash-flow check), and a strictly negative final projected
cash flow `cf_0*(1+g/100)^y`, `dcf_model` fails with
`NegativeTerminalCashFlow` and returns no numeric value; in particular
`initial_free_cash_flow = -50` with any positive growth rate and any
`forecast_years ≥ 1` has a negative final-year cash flow and fails so. -/
theorem dcf_model_negative_final_fcf :
    (∀ (f g tg dr : ℚ) (y : ℕ), dr ≠ -100 → tg < dr → f * (1 + g / 100) ^ y < 0 →
      dcf_model f g tg dr y = .error .NegativeTerminalCashFlow) ∧
    (∀ (g tg dr : ℚ) (y : ℕ), dr ≠ -100 → 0 < g → tg < dr → 1 ≤ y →
      dcf_model (-50) g tg dr y = .error .NegativeTerminalCashFlow) := by
  have main : ∀ (f g tg dr : ℚ) (y : ℕ), dr ≠ -100 → tg < dr →
      f * (1 + g / 100) ^ y < 0 →
      dcf_model f g tg dr y = .error .NegativeTerminalCashFlow :=
    fun f g tg dr y hdr h1 h2 =>
      dcf_model_error_of_neg_final f g tg dr y (fun h => hdr (by linarith)) h1 h2
  refine ⟨main, fun g tg dr y hdr hg h1 _ => ?_⟩
  have hA : (0 : ℚ) < 1 + g / 100 := by linarith
  exact main (-50) g tg dr y hdr h1
    (mul_neg_of_neg_of_pos (by norm_num) (pow_pos hA y))

/-- Witness for C3 at `f = -50`, `g = 10`, `tg = 2`, `dr = 8`, `y = 1`. -/
theorem dcf_model_negative_final_fcf_witness :
    dcf_model (-50) 10 2 8 1 = .error .NegativeTerminalCashFlow :=
  dcf_model_negative_final_fcf.2 10 2 8 1 (by norm_num) (by norm_num) (by norm_num)
    (by norm_num)

/-- C4: at `fcf = 100`, `growth = 0`, `terminal_growth = 0`,
`discount_rate = 10`, `years = 1`, the explicit period succeeds with the
single discounted cash flow `100/1.1 = 1000/11` and final cash flow `100`,
the terminal value is `1000`, its discounted value is
`1000/1.1 = 10000/11`, and the total is exactly `1000`. -/
theorem dcf_model_worked_example :
    dcf_model 100 0 0 10 1 = .ok 1000 ∧
    dcf_loop 0 10 100 1 = .ok ([1000 / 11], 100) ∧
    terminal_value 100 0 10 = 1000 ∧
    terminal_value 100 0 10 / (1 + 10 / 100) ^ 1 = 10000 / 11 := by
  refine ⟨?_, ?_, ?_, ?_⟩
  · rw [dcf_model_eq_closed 100 0 0 10 1 (by norm_num) (by norm_num) (by norm_num)]
    norm_num
  · rw [dcf_loop_ok 0 10 100 1 (by norm_num)]
    norm_num [List.range_succ]
  · norm_num [terminal_value]
  · norm_num [terminal_value]

/-- C6: `validate_weights` returns `true` exactly when the sum of the
weights is within `0.01` of `100`, for every list of weights; in particular
it accepts `[33.33, 33.33, 33.34]` and rejects `[50, 40]`. -/
theorem validate_weights_spec :
    (∀ ws : List ℚ, validate_weights ws = true ↔ |ws.sum - 100| < 1 / 100) ∧
    validate_weights [3333 / 100, 3333 / 100, 3334 / 100] = true ∧
    validate_weights [50, 40] = false := by
  refine ⟨fun ws => ?_, by norm_num [validate_weights], by norm_num [validate_weights]⟩
  simp [validate_weights]

/-- C7: the empty weight list is rejected (`|0 - 100| ≥ 0.01`). -/
theorem validate_weights_empty : validate_weights [] = false := by
  norm_num [validate_weights]

/-- C8: `dcf_model` is a pure function of its five arguments: two
invocations on identical inputs yield identical outcomes (the same value on
success, the same failure kind on failure). -/
theorem dcf_model_deterministic :
    ∀ (f g tg dr : ℚ) (y : ℕ), dcf_model f g tg dr y = dcf_model f g tg dr y :=
  fun _ _ _ _ _ => rfl

/-- C9: `forecast_years = 0` is not rejected: with valid assumptions and a
non-negative initial cash flow, `dcf_model` succeeds with an empty explicit
period and returns the undiscounted terminal value
`fcf*(1+tg/100) / (dr/100 - tg/100)` (no denominator can vanish here: the
terminal discount is `(1+dr/100)^0 = 1`, and `dr/100 - tg/100 > 0` from
the assumptions guard). -/
theorem dcf_model_zero_years (f g tg dr : ℚ) (h1 : tg < dr) (h2 : 0 ≤ f) :
    dcf_model f g tg dr 0 = .ok (f * (1 + tg / 100) / (dr / 100 - tg / 100)) := by
  have hs : dr / 100 - tg / 100 ≠ 0 := ne_of_gt (by linarith)
  rw [dcf_model, if_neg (not_le.mpr h1)]
  rw [show dcf_loop g dr f 0 = .ok ([], f) from rfl, except_bind_ok]
  simp only [if_neg (not_lt.mpr h2), if_neg hs, pow_zero, if_neg (one_ne_zero (α := ℚ))]
  rw [terminal_value]
  norm_num

/-- Witness for C9 at `f = 100`, `tg = 2`, `dr = 10`. -/
theorem dcf_model_zero_years_witness :
    dcf_model 100 5 2 10 0 = .ok (100 * (1 + 2 / 100) / (10 / 100 - 2 / 100)) :=
  dcf_model_zero_years 100 5 2 10 (by norm_num) (by norm_num)

/-- C5 counterexample: at `fcf = 100 > 0`, `growth = -100`,
`terminal_growth = 0`, `years = 1`, with discount rates `5 < 10`, every
condition of the claim holds (positive initial cash flow, terminal growth
below both discount rates, non-negative final projected cash flow), yet
both discount rates yield the same `total_value = 0` — the higher rate does
not give a strictly smaller value. -/
theorem dcf_model_discount_monotone_cex :
    (0 : ℚ) < 100 ∧ (0 : ℚ) < 5 ∧ (5 : ℚ) < 10 ∧
    0 ≤ (100 : ℚ) * (1 + (-100) / 100) ^ 1 ∧
    dcf_model 100 (-100) 0 5 1 = .ok 0 ∧ dcf_model 100 (-100) 0 10 1 = .ok 0 ∧
    ¬ ((0 : ℚ) < 0) := by
  refine ⟨by norm_num, by norm_num, by norm_num, by norm_num, ?_, ?_, by norm_num⟩
  · rw [dcf_model_eq_closed 100 (-100) 0 5 1 (by norm_num) (by norm_num) (by norm_num)]
    norm_num
  · rw [dcf_model_eq_closed 100 (-100) 0 10 1 (by norm_num) (by norm_num) (by norm_num)]
    norm_num

/-- C5 (amended): holding everything else fixed, a strictly larger
discount rate strictly decreases `total_value`, provided additionally that
`growth_rate_pct > -100` (so all projected cash flows stay positive —
at `growth_rate_pct = -100` every projected cash flow is `0` and the total
is `0` for every discount rate, see the counterexample), that
`discount_rate_pct > -100` (positive discount factors), and that there is
at least one forecast year. -/
theorem dcf_model_discount_monotone (f g tg dr₁ dr₂ : ℚ) (y : ℕ)
    (hf : 0 < f) (hg : -100 < g) (hdr : -100 < dr₁) (h12 : dr₁ < dr₂)
    (h1 : tg < dr₁) (hy : 1 ≤ y) :
    (∃ v₁, dcf_model f g tg dr₁ y = .ok v₁) ∧
    (∃ v₂, dcf_model f g tg dr₂ y = .ok v₂) ∧
    ∀ v₁ v₂, dcf_model f g tg dr₁ y = .ok v₁ → dcf_model f g tg dr₂ y = .ok v₂ →
      v₂ < v₁ := by
  have hA : (0 : ℚ) < 1 + g / 100 := by linarith
  have hD1 : (0 : ℚ) < 1 + dr₁ / 100 := by linarith
  have hD2 : (0 : ℚ) < 1 + dr₂ / 100 := by linarith
  have h1' : tg < dr₂ := lt_trans h1 h12
  have h2 : 0 ≤ f * (1 + g / 100) ^ y := by positivity
  obtain ⟨n, rfl⟩ : ∃ n, y = n + 1 := ⟨y - 1, by omega⟩
  refine ⟨⟨_, dcf_model_eq_closed f g tg dr₁ _ hD1.ne' h1 h2⟩,
    ⟨_, dcf_model_eq_closed f g tg dr₂ _ hD2.ne' h1' h2⟩, fun v₁ v₂ e₁ e₂ => ?_⟩
  rw [dcf_model_eq_closed f g tg dr₁ _ hD1.ne' h1 h2] at e₁
  rw [dcf_model_eq_closed f g tg dr₂ _ hD2.ne' h1' h2] at e₂
  rw [← Except.ok.inj e₁, ← Except.ok.inj e₂]
  exact closed_anti f g tg dr₁ dr₂ n hf hA hD1 h12 h1

/-- Witness for the amended C5: raising the discount rate from `5` to `10`
(at `fcf = 100`, zero growth, zero terminal growth, one forecast year)
lowers the total from `2000` to `1000`. -/
theorem dcf_model_discount_monotone_witness :
    dcf_model 100 0 0 5 1 = .ok 2000 ∧ dcf_model 100 0 0 10 1 = .ok 1000 ∧
    (1000 : ℚ) < 2000 := by
  have e₁ : dcf_model 100 0 0 5 1 = .ok 2000 := by
    rw [dcf_model_eq_closed 100 0 0 5 1 (by norm_num) (by norm_num) (by norm_num)]
    norm_num
  have e₂ : dcf_model 100 0 0 10 1 = .ok 1000 := by
    rw [dcf_model_eq_closed 100 0 0 10 1 (by norm_num) (by norm_num) (by norm_num)]
    norm_num
  exact ⟨e₁, e₂, (dcf_model_discount_monotone 100 0 0 5 10 1 (by norm_num) (by norm_num)
    (by norm_num) (by norm_num) (by norm_num) (by norm_num)).2.2 2000 1000 e₁ e₂⟩

/-- C10 counterexample: at `k = 2`, `fcf = 100`, `growth = 0`,
`terminal_growth = -150`, `discount_rate = -100`, `years = 1`, the claim's
hypotheses hold (`k > 0`, `tg < dr`, non-negative final projected cash
flow), but neither the unscaled nor the scaled call succeeds: both raise
`ZeroDivisionError` in the loop, so no scaled total is returned. -/
theorem dcf_model_homogeneous_cex :
    (0 : ℚ) < 2 ∧ (-150 : ℚ) < -100 ∧ 0 ≤ (100 : ℚ) * (1 + 0 / 100) ^ 1 ∧
    dcf_model 100 0 (-150) (-100) 1 = .error .ZeroDivision ∧
    dcf_model (2 * 100) 0 (-150) (-100) 1 = .error .ZeroDivision := by
  refine ⟨by norm_num, by norm_num, by norm_num, ?_, ?_⟩
  · exact dcf_model_zero_div 100 0 (-150) 0 (by norm_num)
  · exact dcf_model_zero_div (2 * 100) 0 (-150) 0 (by norm_num)

/-- C10 (amended): `dcf_model` is positively homogeneous in the initial
cash flow: scaling `initial_free_cash_flow` by `k > 0` (with valid
assumptions, a non-negative final projected cash flow, and
`discount_rate_pct ≠ -100` — at `-100` both calls crash with
`ZeroDivisionError` instead of succeeding) keeps the computation
successful and scales `total_value` by exactly `k`. -/
theorem dcf_model_homogeneous (k f g tg dr : ℚ) (y : ℕ)
    (hk : 0 < k) (hdr : dr ≠ -100) (h1 : tg < dr)
    (h2 : 0 ≤ f * (1 + g / 100) ^ y) :
    (∃ v, dcf_model f g tg dr y = .ok v) ∧
    ∀ v, dcf_model f g tg dr y = .ok v → dcf_model (k * f) g tg dr y = .ok (k * v) := by
  have hD : (1 : ℚ) + dr / 100 ≠ 0 := fun h => hdr (by linarith)
  refine ⟨⟨_, dcf_model_eq_closed f g tg dr y hD h1 h2⟩, fun v hv => ?_⟩
  rw [dcf_model_eq_closed f g tg dr y hD h1 h2] at hv
  have hv' := Except.ok.inj hv
  have h2' : 0 ≤ k * f * (1 + g / 100) ^ y := by
    rw [mul_assoc]
    exact mul_nonneg hk.le h2
  have hsum : (∑ t ∈ Finset.range y, k * f * (1 + g / 100) ^ (t + 1) / (1 + dr / 100) ^ (t + 1))
      = k * ∑ t ∈ Finset.range y, f * (1 + g / 100) ^ (t + 1) / (1 + dr / 100) ^ (t + 1) := by
    rw [Finset.mul_sum]
    exact Finset.sum_congr rfl fun t _ => by ring
  rw [dcf_model_eq_closed (k * f) g tg dr y hD h1 h2', ← hv']
  congr 1
  rw [hsum]
  ring

/-- Witness for C10 at `k = 2`, `f = 100`, `dr = 10`, `y = 1`. -/
theorem dcf_model_homogeneous_witness :
    dcf_model 100 0 0 10 1 = .ok 1000 ∧ dcf_model (2 * 100) 0 0 10 1 = .ok (2 * 1000) := by
  have e : dcf_model 100 0 0 10 1 = .ok 1000 := by
    rw [dcf_model_eq_closed 100 0 0 10 1 (by norm_num) (by norm_num) (by norm_num)]
    norm_num
  exact ⟨e, (dcf_model_homogeneous 2 100 0 0 10 1 (by norm_num) (by norm_num)
    (by norm_num) (by norm_num)).2 1000 e⟩

end StockApp
